import Mathlib

/-!
Verification of the AI-story single-page client (`src/frontend/src/App.tsx`).

The file holds two React components: a styled variant (MUI) and a plain
variant, each with state hooks, a `loadStories` listing call, a generation
call (`onGenerate` in the styled variant, `generate` in the plain one), and,
in the styled variant only, a `filtered` search over the loaded stories.

The embedding below models each component's state as a structure, and each
network-touching operation as a pure function from the prior state and the
observed backend outcome to the resulting state, paired with a flag telling
whether a request was issued.  Fetch responses are modelled by their HTTP
status, their body text, and the result of JSON-decoding the body; the
WHATWG fetch `Response.ok` flag is `200 ≤ status < 300`.
-/

/-- The `Story` record exchanged with the backend (`type Story` in both
variants of `App.tsx`). -/
structure Story where
  id : Int
  prompt : String
  story : String
  created_at : String
deriving DecidableEq

/-- WHATWG fetch: `Response.ok` is true exactly when the status is in the
range 200 to 299 inclusive.  Both variants branch on `res.ok`. -/
def respOk (status : Nat) : Bool :=
  200 ≤ status && status < 300

/-- JavaScript `String.prototype.toLowerCase`, modelled character by
character (ASCII-faithful). -/
def lowerStr (s : String) : String :=
  String.mk (s.data.map Char.toLower)

/-- JavaScript `String.prototype.trim` on the underlying character list:
drop leading and trailing whitespace. -/
def trimChars (l : List Char) : List Char :=
  ((l.dropWhile Char.isWhitespace).reverse.dropWhile Char.isWhitespace).reverse

/-- JavaScript `String.prototype.trim` (ASCII-faithful). -/
def trimStr (s : String) : String :=
  String.mk (trimChars s.data)

/-- Does `needle` occur at the head of `hay`? (helper for substring
containment). -/
def startsWithChars : List Char → List Char → Bool
  | [], _ => true
  | _ :: _, [] => false
  | a :: as, b :: bs => a == b && startsWithChars as bs

/-- Does `needle` occur somewhere in `hay`? (helper for substring
containment). -/
def containsFrom (needle : List Char) : List Char → Bool
  | [] => needle.isEmpty
  | c :: rest => startsWithChars needle (c :: rest) || containsFrom needle rest

/-- JavaScript `String.prototype.includes`: substring containment. -/
def strContains (hay needle : String) : Bool :=
  containsFrom needle.data hay.data

/-- State of the styled variant's `App` component: the `useState` hooks
`prompt`, `loading`, `fetching`, `error`, `stories`, `generated`, `query`. -/
structure AppState where
  prompt : String
  loading : Bool
  fetching : Bool
  error : Option String
  stories : List Story
  generated : Option Story
  query : String
deriving DecidableEq

/-- State of the plain variant's `App` component: the `useState` hooks
`prompt`, `loading`, `error`, `stories`, `current`. -/
structure PlainState where
  prompt : String
  loading : Bool
  error : Option String
  stories : List Story
  current : String
deriving DecidableEq

/-- Result of `res.json()`: either the decoded value or a thrown parse
error carrying its message. -/
inductive Decoded (α : Type) where
  | ok (val : α)
  | fail (msg : String)
deriving DecidableEq

/-- Outcome of the `POST /api/story` fetch as the generation code observes
it: either an HTTP response (status, body text, and the result of decoding
the body as a `Story`), or a network error whose exception carries `msg`. -/
inductive GenOutcome where
  | response (status : Nat) (bodyText : String) (decoded : Decoded Story)
  | netError (msg : String)
deriving DecidableEq

/-- Outcome of the `GET /api/story` fetch as `loadStories` observes it. -/
inductive ListOutcome where
  | response (status : Nat) (decoded : Decoded (List Story))
  | netError (msg : String)
deriving DecidableEq

/-- The styled variant's state right after `setLoading(true); setError(null);
setGenerated(null)` and before the `fetch` is issued (`onGenerate`,
lines 100–102). -/
def genRequestState (s : AppState) : AppState :=
  { s with loading := true, error := none, generated := none }

/-- The plain variant's state right after `setLoading(true); setError(null);
setCurrent("")` and before the `fetch` is issued (`generate`,
lines 403–405). -/
def genRequestStatePlain (s : PlainState) : PlainState :=
  { s with loading := true, error := none, current := "" }

/-- The styled variant's `onGenerate`: trims the prompt and returns doing
nothing when the trimmed prompt is empty; otherwise clears error and
generated, issues the POST, and on `res.ok` stores the decoded story, on a
non-ok response surfaces `text || "Server error"`, and on a thrown error
surfaces `e.message || "Failed to generate"`; `loading` is reset in the
`finally` block.  The boolean result tells whether a request was issued. -/
def onGenerate (s : AppState) (outcome : GenOutcome) : AppState × Bool :=
  if trimStr s.prompt = "" then (s, false)
  else
    let s1 := genRequestState s
    match outcome with
    | .response status bodyText decoded =>
      if respOk status then
        match decoded with
        | .ok data =>
          ({ s1 with generated := some data, stories := data :: s1.stories,
                     prompt := "", loading := false }, true)
        | .fail msg =>
          ({ s1 with error := some (if msg = "" then "Failed to generate" else msg),
                     loading := false }, true)
      else
        ({ s1 with error := some (if bodyText = "" then "Server error" else bodyText),
                   loading := false }, true)
    | .netError msg =>
      ({ s1 with error := some (if msg = "" then "Failed to generate" else msg),
                 loading := false }, true)

/-- The plain variant's `generate`: identical control flow, but the current
result is the string `current`, set to `data.story` on success. -/
def generatePlain (s : PlainState) (outcome : GenOutcome) : PlainState × Bool :=
  if trimStr s.prompt = "" then (s, false)
  else
    let s1 := genRequestStatePlain s
    match outcome with
    | .response status bodyText decoded =>
      if respOk status then
        match decoded with
        | .ok data =>
          ({ s1 with current := data.story, stories := data :: s1.stories,
                     prompt := "", loading := false }, true)
        | .fail msg =>
          ({ s1 with error := some (if msg = "" then "Failed to generate" else msg),
                     loading := false }, true)
      else
        ({ s1 with error := some (if bodyText = "" then "Server error" else bodyText),
                   loading := false }, true)
    | .netError msg =>
      ({ s1 with error := some (if msg = "" then "Failed to generate" else msg),
                 loading := false }, true)

/-- The styled variant's `loadStories`: on an ok response with a decoded
array, replace the collection; every failure (non-ok status, decode error,
network error) is only logged by `console.error`; `setFetching(false)` runs
in the `finally` block either way. -/
def loadStories (s : AppState) (outcome : ListOutcome) : AppState :=
  match outcome with
  | .response status decoded =>
    if respOk status then
      match decoded with
      | .ok data => { s with stories := data, fetching := false }
      | .fail _ => { s with fetching := false }
    else { s with fetching := false }
  | .netError _ => { s with fetching := false }

/-- The plain variant's `loadStories`: same, without the `fetching` flag. -/
def loadStoriesPlain (s : PlainState) (outcome : ListOutcome) : PlainState :=
  match outcome with
  | .response status decoded =>
    if respOk status then
      match decoded with
      | .ok data => { s with stories := data }
      | .fail _ => s
    else s
  | .netError _ => s

/-- The styled variant's `filtered` memo: trim and lowercase the query; an
empty result keeps all stories, otherwise keep the stories whose lowercased
prompt or story text contains it. -/
def filteredStories (stories : List Story) (query : String) : List Story :=
  let q := lowerStr (trimStr query)
  if q = "" then stories
  else stories.filter fun s =>
    strContains (lowerStr s.prompt) q || strContains (lowerStr s.story) q

/-- Modelled from the spec: the filter as §4.1 words it — "the subsequence
of stories whose `prompt` or `story` text contains the query
(case-insensitive substring match); empty query yields the full collection
unfiltered".  Used only to compare against `filteredStories`. -/
def specFilter (stories : List Story) (query : String) : List Story :=
  if query = "" then stories
  else stories.filter fun s =>
    strContains (lowerStr s.prompt) (lowerStr query) ||
      strContains (lowerStr s.story) (lowerStr query)

/-- Does a generation outcome take the failure (catch) path? -/
def genFails : GenOutcome → Bool
  | .response status (_) (.ok _) => !respOk status
  | .response _ (_) (.fail _) => true
  | .netError _ => true

/-- Does a listing outcome take the failure (catch) path? -/
def listFails : ListOutcome → Bool
  | .response status (.ok _) => !respOk status
  | .response _ (.fail _) => true
  | .netError _ => true

/-- The ways the generate operation can be triggered in the UI: clicking the
submit button (which is rendered with `disabled={loading || !prompt.trim()}`)
or pressing Enter in the prompt field (whose `onKeyDown` handler calls the
generate function with no further guard). -/
inductive Trigger where
  | submitButton
  | enterKey
deriving DecidableEq

/-- Effect of a trigger on the styled variant: a disabled button ignores the
click; the Enter key always invokes `onGenerate`. -/
def triggerStyled (t : Trigger) (s : AppState) (o : GenOutcome) : AppState × Bool :=
  match t with
  | .submitButton =>
    if s.loading || trimStr s.prompt = "" then (s, false) else onGenerate s o
  | .enterKey => onGenerate s o

/-- Effect of a trigger on the plain variant: same wiring
(`disabled={loading || !prompt.trim()}` on the button, unguarded
`onKeyDown` on the input). -/
def triggerPlain (t : Trigger) (s : PlainState) (o : GenOutcome) : PlainState × Bool :=
  match t with
  | .submitButton =>
    if s.loading || trimStr s.prompt = "" then (s, false) else generatePlain s o
  | .enterKey => generatePlain s o

/-- Events a session can feed either variant: typing into the prompt field,
a completed listing call, a completed generation attempt. -/
inductive Event where
  | typePrompt (text : String)
  | load (o : ListOutcome)
  | gen (o : GenOutcome)

/-- One event step of the styled variant; the boolean records whether a
network request was issued by the step. -/
def stepStyled (s : AppState) : Event → AppState × Bool
  | .typePrompt text => ({ s with prompt := text }, false)
  | .load o => (loadStories s o, true)
  | .gen o => onGenerate s o

/-- One event step of the plain variant. -/
def stepPlain (s : PlainState) : Event → PlainState × Bool
  | .typePrompt text => ({ s with prompt := text }, false)
  | .load o => (loadStoriesPlain s o, true)
  | .gen o => generatePlain s o

/-- Run of the styled variant over an event list, collecting the
request-issued flags in order. -/
def runStyled (s : AppState) : List Event → AppState × List Bool
  | [] => (s, [])
  | e :: es =>
    ((runStyled (stepStyled s e).1 es).1,
      (stepStyled s e).2 :: (runStyled (stepStyled s e).1 es).2)

/-- Run of the plain variant over an event list. -/
def runPlain (s : PlainState) : List Event → PlainState × List Bool
  | [] => (s, [])
  | e :: es =>
    ((runPlain (stepPlain s e).1 es).1,
      (stepPlain s e).2 :: (runPlain (stepPlain s e).1 es).2)

/-- The observable agreement C9 asks for: same prompt, loading flag, error
and story collection. -/
def rel (s : AppState) (p : PlainState) : Prop :=
  s.prompt = p.prompt ∧ s.loading = p.loading ∧
    s.error = p.error ∧ s.stories = p.stories

/-- Initial state of the styled variant (the `useState` initialisers). -/
def initStyled : AppState :=
  { prompt := "", loading := false, fetching := false, error := none,
    stories := [], generated := none, query := "" }

/-- Initial state of the plain variant. -/
def initPlain : PlainState :=
  { prompt := "", loading := false, error := none, stories := [],
    current := "" }

/-- A sample story used in concrete evaluations. -/
def story1 : Story :=
  { id := 1, prompt := "dragons", story := "Once upon a time.",
    created_at := "2024-01-01T00:00:00Z" }

/-- A story whose prompt and text contain no whitespace. -/
def storyX : Story :=
  { id := 2, prompt := "x", story := "y", created_at := "t" }

/-- A styled-variant state ready to submit the prompt "dragons". -/
def idleStyled : AppState :=
  { prompt := "dragons", loading := false, fetching := false, error := none,
    stories := [], generated := none, query := "" }

/-- A plain-variant state ready to submit the prompt "dragons". -/
def idlePlain : PlainState :=
  { prompt := "dragons", loading := false, error := none, stories := [],
    current := "" }

/-- A styled-variant state with a request outstanding. -/
def busyStyled : AppState :=
  { prompt := "dragons", loading := true, fetching := false, error := none,
    stories := [], generated := none, query := "" }

/-- A plain-variant state with a request outstanding. -/
def busyPlain : PlainState :=
  { prompt := "dragons", loading := true, error := none, stories := [],
    current := "" }

/-- A styled-variant state whose prompt is whitespace only. -/
def blankStyled : AppState :=
  { prompt := "  ", loading := false, fetching := false, error := some "old",
    stories := [story1], generated := some story1, query := "q" }

/-- A plain-variant state whose prompt is whitespace only. -/
def blankPlain : PlainState :=
  { prompt := "  ", loading := false, error := some "old",
    stories := [story1], current := "old text" }

/-- Lowercasing yields the empty string only for the empty string. -/
theorem lowerStr_eq_nil (s : String) : lowerStr s = "" ↔ s = "" := by
  cases s with
  | mk data => simp [lowerStr, String.ext_iff]

/-- Claim C1: on a successful POST (ok status, decoded story), both
variants store the decoded story as the current/generated result, prepend
it to the story collection leaving the previous elements after it in
order, and clear the prompt input. -/
theorem generate_success (s : AppState) (p : PlainState) (status : Nat)
    (body : String) (data : Story)
    (hs : trimStr s.prompt ≠ "") (hp : trimStr p.prompt ≠ "")
    (hok : respOk status = true) :
    onGenerate s (.response status body (.ok data)) =
      ({ s with loading := false, error := none, generated := some data,
                stories := data :: s.stories, prompt := "" }, true) ∧
    generatePlain p (.response status body (.ok data)) =
      ({ p with loading := false, error := none, current := data.story,
                stories := data :: p.stories, prompt := "" }, true) := by
  unfold onGenerate generatePlain genRequestState genRequestStatePlain
  simp [hs, hp, hok]

/-- Claim C1 witness: concrete successful generation from `idleStyled` and
`idlePlain`. -/
theorem generate_success_witness :
    onGenerate idleStyled (.response 200 "" (.ok story1)) =
      ({ idleStyled with loading := false, error := none,
                         generated := some story1,
                         stories := story1 :: idleStyled.stories,
                         prompt := "" }, true) ∧
    generatePlain idlePlain (.response 200 "" (.ok story1)) =
      ({ idlePlain with loading := false, error := none,
                        current := story1.story,
                        stories := story1 :: idlePlain.stories,
                        prompt := "" }, true) :=
  generate_success idleStyled idlePlain 200 "" story1
    (by decide) (by decide) (by decide)

/-- Claim C2: a failing generation attempt — non-ok HTTP response or thrown
network error — sets the user-visible error to the response body text when
it is non-empty and to a generic message otherwise, leaves the story
collection exactly as before the call, and resets the loading flag, in both
variants. -/
theorem generate_failure (s : AppState) (p : PlainState) (status : Nat)
    (body : String) (dec : Decoded Story) (msg : String)
    (hs : trimStr s.prompt ≠ "") (hp : trimStr p.prompt ≠ "")
    (hok : respOk status = false) :
    ((onGenerate s (.response status body dec)).1.error
        = some (if body = "" then "Server error" else body) ∧
      (onGenerate s (.response status body dec)).1.stories = s.stories ∧
      (onGenerate s (.response status body dec)).1.loading = false) ∧
    ((onGenerate s (.netError msg)).1.error
        = some (if msg = "" then "Failed to generate" else msg) ∧
      (onGenerate s (.netError msg)).1.stories = s.stories ∧
      (onGenerate s (.netError msg)).1.loading = false) ∧
    ((generatePlain p (.response status body dec)).1.error
        = some (if body = "" then "Server error" else body) ∧
      (generatePlain p (.response status body dec)).1.stories = p.stories ∧
      (generatePlain p (.response status body dec)).1.loading = false) ∧
    ((generatePlain p (.netError msg)).1.error
        = some (if msg = "" then "Failed to generate" else msg) ∧
      (generatePlain p (.netError msg)).1.stories = p.stories ∧
      (generatePlain p (.netError msg)).1.loading = false) := by
  unfold onGenerate generatePlain genRequestState genRequestStatePlain
  simp [hs, hp, hok]

/-- Claim C2 witness: a simulated 500 response with body "boom" shows the
error "boom" and leaves the collections unchanged. -/
theorem generate_failure_witness :
    ((onGenerate idleStyled (.response 500 "boom" (.fail "x"))).1.error
        = some (if "boom" = "" then "Server error" else "boom") ∧
      (onGenerate idleStyled (.response 500 "boom" (.fail "x"))).1.stories
        = idleStyled.stories ∧
      (onGenerate idleStyled (.response 500 "boom" (.fail "x"))).1.loading
        = false) ∧
    ((onGenerate idleStyled (.netError "")).1.error
        = some (if "" = "" then "Failed to generate" else "") ∧
      (onGenerate idleStyled (.netError "")).1.stories = idleStyled.stories ∧
      (onGenerate idleStyled (.netError "")).1.loading = false) ∧
    ((generatePlain idlePlain (.response 500 "boom" (.fail "x"))).1.error
        = some (if "boom" = "" then "Server error" else "boom") ∧
      (generatePlain idlePlain (.response 500 "boom" (.fail "x"))).1.stories
        = idlePlain.stories ∧
      (generatePlain idlePlain (.response 500 "boom" (.fail "x"))).1.loading
        = false) ∧
    ((generatePlain idlePlain (.netError "")).1.error
        = some (if "" = "" then "Failed to generate" else "") ∧
      (generatePlain idlePlain (.netError "")).1.stories
        = idlePlain.stories ∧
      (generatePlain idlePlain (.netError "")).1.loading = false) :=
  generate_failure idleStyled idlePlain 500 "boom" (.fail "x") ""
    (by decide) (by decide) (by decide)

/-- Claim C5: a successful listing response replaces the whole local story
collection with exactly the decoded array, in the order received, in both
variants. -/
theorem load_success (s : AppState) (p : PlainState) (status : Nat)
    (data : List Story) (hok : respOk status = true) :
    loadStories s (.response status (.ok data))
        = { s with stories := data, fetching := false } ∧
    loadStoriesPlain p (.response status (.ok data))
        = { p with stories := data } := by
  unfold loadStories loadStoriesPlain
  simp [hok]

/-- Claim C5 witness: a 200 listing response with one story replaces the
collection. -/
theorem load_success_witness :
    loadStories idleStyled (.response 200 (.ok [story1, storyX]))
        = { idleStyled with stories := [story1, storyX], fetching := false } ∧
    loadStoriesPlain idlePlain (.response 200 (.ok [story1, storyX]))
        = { idlePlain with stories := [story1, storyX] } :=
  load_success idleStyled idlePlain 200 [story1, storyX] (by decide)

/-- Claim C6: with an empty or whitespace-only prompt, triggering generate
issues no network request and leaves the entire state unchanged, in both
variants. -/
theorem generate_blank_prompt (s : AppState) (p : PlainState)
    (o : GenOutcome)
    (hs : trimStr s.prompt = "") (hp : trimStr p.prompt = "") :
    onGenerate s o = (s, false) ∧ generatePlain p o = (p, false) := by
  unfold onGenerate generatePlain
  simp [hs, hp]

/-- Claim C6 witness: the whitespace-only prompt "  " is a no-op. -/
theorem generate_blank_prompt_witness :
    onGenerate blankStyled (.netError "boom") = (blankStyled, false) ∧
    generatePlain blankPlain (.netError "boom") = (blankPlain, false) :=
  generate_blank_prompt blankStyled blankPlain (.netError "boom")
    (by decide) (by decide)

/-- Resetting an already-clear fetching flag is the identity. -/
theorem set_fetching_self (s : AppState) (h : s.fetching = false) :
    { s with fetching := false } = s := by
  cases s
  simp only at h
  simp [h]

/-- Claim C7: every failing listing call — non-ok status, decode error, or
network error — leaves the state exactly as it was (given a clear fetching
flag, which holds at every trigger of the call since the refresh button is
disabled while fetching), so the story collection is retained and no
user-facing error is surfaced; the plain variant's state is untouched with
no proviso. -/
theorem load_failure_noop (s : AppState) (p : PlainState) (o : ListOutcome)
    (hfail : listFails o = true) (hf : s.fetching = false) :
    loadStories s o = s ∧ loadStoriesPlain p o = p := by
  cases o with
  | response status dec =>
    cases dec with
    | ok data =>
      have hok : respOk status = false := by
        simpa [listFails] using hfail
      unfold loadStories loadStoriesPlain
      simp [hok, set_fetching_self s hf]
    | fail m =>
      unfold loadStories loadStoriesPlain
      cases hr : respOk status <;> simp [hr, set_fetching_self s hf]
  | netError m =>
    unfold loadStories loadStoriesPlain
    simp [set_fetching_self s hf]

/-- Claim C7 witness: a 500 listing response leaves both states unchanged. -/
theorem load_failure_noop_witness :
    loadStories idleStyled (.response 500 (.fail "boom")) = idleStyled ∧
    loadStoriesPlain idlePlain (.response 500 (.fail "boom")) = idlePlain :=
  load_failure_noop idleStyled idlePlain (.response 500 (.fail "boom"))
    (by decide) (by decide)

/-- Generation issues a request exactly when the trimmed prompt is
non-empty (the styled variant's `onGenerate` checks nothing else — in
particular not the loading flag). -/
theorem onGenerate_issued (s : AppState) (o : GenOutcome) :
    (onGenerate s o).2 = true ↔ trimStr s.prompt ≠ "" := by
  unfold onGenerate genRequestState
  by_cases h : trimStr s.prompt = ""
  · simp [h]
  · simp only [h, if_neg, ne_eq, not_false_iff, iff_true]
    cases o with
    | response status body dec =>
      cases dec <;> cases hr : respOk status <;> simp [hr]
    | netError m => simp

/-- Generation issues a request exactly when the trimmed prompt is
non-empty (plain variant). -/
theorem generatePlain_issued (s : PlainState) (o : GenOutcome) :
    (generatePlain s o).2 = true ↔ trimStr s.prompt ≠ "" := by
  unfold generatePlain genRequestStatePlain
  by_cases h : trimStr s.prompt = ""
  · simp [h]
  · simp only [h, if_neg, ne_eq, not_false_iff, iff_true]
    cases o with
    | response status body dec =>
      cases dec <;> cases hr : respOk status <;> simp [hr]
    | netError m => simp

/-- Claim C3 counterexample: with a request outstanding (`loading = true`)
and the prompt "dragons" still in the field, pressing Enter invokes the
generate operation and a second request is issued — the repeated trigger is
not a no-op. -/
theorem enter_while_loading_issues_request :
    busyStyled.loading = true ∧
    (triggerStyled .enterKey busyStyled (.netError "boom")).2 = true ∧
    triggerStyled .enterKey busyStyled (.netError "boom")
      ≠ (busyStyled, false) := by decide

/-- Claim C3 amended: while a request is outstanding the submit button is
disabled, so triggering it is a no-op that issues no request, in both
variants; the Enter-key trigger, however, is not guarded by the loading
flag: it invokes the generate operation, which issues a further request
exactly when the trimmed prompt is non-empty. -/
theorem trigger_while_loading (s : AppState) (p : PlainState)
    (o : GenOutcome) (hs : s.loading = true) (hp : p.loading = true) :
    triggerStyled .submitButton s o = (s, false) ∧
    triggerPlain .submitButton p o = (p, false) ∧
    ((triggerStyled .enterKey s o).2 = true ↔ trimStr s.prompt ≠ "") ∧
    ((triggerPlain .enterKey p o).2 = true ↔ trimStr p.prompt ≠ "") := by
  refine ⟨?_, ?_, ?_, ?_⟩
  · unfold triggerStyled
    simp [hs]
  · unfold triggerPlain
    simp [hp]
  · exact onGenerate_issued s o
  · exact generatePlain_issued p o

/-- Claim C3 amended witness: concrete busy states. -/
theorem trigger_while_loading_witness :
    triggerStyled .submitButton busyStyled (.netError "boom")
        = (busyStyled, false) ∧
    triggerPlain .submitButton busyPlain (.netError "boom")
        = (busyPlain, false) ∧
    ((triggerStyled .enterKey busyStyled (.netError "boom")).2 = true
        ↔ trimStr busyStyled.prompt ≠ "") ∧
    ((triggerPlain .enterKey busyPlain (.netError "boom")).2 = true
        ↔ trimStr busyPlain.prompt ≠ "") :=
  trigger_while_loading busyStyled busyPlain (.netError "boom")
    (by decide) (by decide)

/-- Claim C4 counterexample: with the whitespace-only query " ", the styled
filter returns `storyX` even though neither its prompt nor its story text
contains " " as a substring, and the query is not empty — the code trims
the query before matching, which the claim as stated does not account
for.  The filter following the claim's own words returns nothing here. -/
theorem filter_whitespace_query :
    filteredStories [storyX] " " = [storyX] ∧
    (" " : String) ≠ "" ∧
    strContains (lowerStr storyX.prompt) (lowerStr " ") = false ∧
    strContains (lowerStr storyX.story) (lowerStr " ") = false ∧
    specFilter [storyX] " " = [] := by decide

/-- Claim C4 amended: the styled filter equals the spec's case-insensitive
substring filter applied to the TRIMMED query — it returns the subsequence
(original order preserved) of stories whose prompt or story text contains
the trimmed query as a case-insensitive substring, and when the trimmed
query is empty (i.e. the query is empty or whitespace-only) it returns the
full collection unchanged. -/
theorem filteredStories_eq_spec_trimmed (stories : List Story)
    (query : String) :
    filteredStories stories query = specFilter stories (trimStr query) ∧
    List.Sublist (filteredStories stories query) stories := by
  constructor
  · unfold filteredStories specFilter
    by_cases h : trimStr query = ""
    · simp [h, lowerStr]
    · have h2 : lowerStr (trimStr query) ≠ "" := by
        intro hc
        exact h ((lowerStr_eq_nil _).1 hc)
      simp [h, h2]
  · unfold filteredStories
    by_cases h : lowerStr (trimStr query) = ""
    · simp [h]
    · simp only [h, if_neg]
      exact List.filter_sublist _

/-- Claim C8 counterexample: status 201 is a status code other than 200,
yet both calls treat the response as a success: the generation call stores
the decoded story, sets no error, and prepends to the collection, and the
listing call replaces the collection. -/
theorem status_201_is_success :
    (201 : Nat) ≠ 200 ∧
    (onGenerate idleStyled (.response 201 "" (.ok story1))).1.generated
        = some story1 ∧
    (onGenerate idleStyled (.response 201 "" (.ok story1))).1.error
        = none ∧
    (onGenerate idleStyled (.response 201 "" (.ok story1))).1.stories
        = [story1] ∧
    loadStories idleStyled (.response 201 (.ok [story1]))
        = { idleStyled with stories := [story1] } := by decide

/-- Claim C8 amended: every HTTP status outside the 200–299 range (fetch's
`Response.ok`) is treated as a failure by both the listing and the
generation call; for generation the failure message is the response body
when it is non-empty, and "Server error" otherwise. -/
theorem non_2xx_is_failure (s : AppState) (status : Nat) (body : String)
    (dec : Decoded Story) (decL : Decoded (List Story))
    (hok : respOk status = false) (hs : trimStr s.prompt ≠ "") :
    (onGenerate s (.response status body dec)).1.error
        = some (if body = "" then "Server error" else body) ∧
    (onGenerate s (.response status body dec)).1.stories = s.stories ∧
    loadStories s (.response status decL)
        = { s with fetching := false } := by
  unfold onGenerate loadStories genRequestState
  simp [hok, hs]

/-- Claim C8 amended witness: status 404 with body "boom". -/
theorem non_2xx_is_failure_witness :
    (onGenerate idleStyled (.response 404 "boom" (.fail "x"))).1.error
        = some (if "boom" = "" then "Server error" else "boom") ∧
    (onGenerate idleStyled (.response 404 "boom" (.fail "x"))).1.stories
        = idleStyled.stories ∧
    loadStories idleStyled (.response 404 (.fail "x"))
        = { idleStyled with fetching := false } :=
  non_2xx_is_failure idleStyled 404 "boom" (.fail "x") (.fail "x")
    (by decide) (by decide)

/-- On a failing generation outcome the styled variant's generated result
stays cleared and the prompt is retained. -/
theorem onGenerate_fail_state (s : AppState) (o : GenOutcome)
    (hs : trimStr s.prompt ≠ "") (hfail : genFails o = true) :
    (onGenerate s o).1.generated = none ∧
      (onGenerate s o).1.prompt = s.prompt := by
  unfold onGenerate genRequestState
  cases o with
  | response st bd dec =>
    cases dec with
    | ok d =>
      have hr : respOk st = false := by simpa [genFails] using hfail
      simp [hs, hr]
    | fail m => cases hr : respOk st <;> simp [hs, hr]
  | netError m => simp [hs]

/-- On a failing generation outcome the plain variant's current result
stays cleared and the prompt is retained. -/
theorem generatePlain_fail_state (p : PlainState) (o : GenOutcome)
    (hp : trimStr p.prompt ≠ "") (hfail : genFails o = true) :
    (generatePlain p o).1.current = "" ∧
      (generatePlain p o).1.prompt = p.prompt := by
  unfold generatePlain genRequestStatePlain
  cases o with
  | response st bd dec =>
    cases dec with
    | ok d =>
      have hr : respOk st = false := by simpa [genFails] using hfail
      simp [hp, hr]
    | fail m => cases hr : respOk st <;> simp [hp, hr]
  | netError m => simp [hp]

/-- Claim C10: with a non-empty trimmed prompt, the state installed before
the request is issued clears the error banner and the previous
current/generated result while keeping the prompt text; after a failing
attempt the previous result therefore stays cleared and the prompt is
retained unchanged; only a successful attempt clears the prompt input.
Both variants behave alike, the plain one on its `current` string. -/
theorem generate_clears_previous (s : AppState) (p : PlainState)
    (o : GenOutcome) (status : Nat) (body : String) (data : Story)
    (hs : trimStr s.prompt ≠ "") (hp : trimStr p.prompt ≠ "")
    (hfail : genFails o = true) (hok : respOk status = true) :
    (genRequestState s).error = none ∧
    (genRequestState s).generated = none ∧
    (genRequestState s).prompt = s.prompt ∧
    (onGenerate s o).1.generated = none ∧
    (onGenerate s o).1.prompt = s.prompt ∧
    (onGenerate s (.response status body (.ok data))).1.prompt = "" ∧
    (genRequestStatePlain p).error = none ∧
    (genRequestStatePlain p).current = "" ∧
    (genRequestStatePlain p).prompt = p.prompt ∧
    (generatePlain p o).1.current = "" ∧
    (generatePlain p o).1.prompt = p.prompt ∧
    (generatePlain p (.response status body (.ok data))).1.prompt = "" := by
  refine ⟨rfl, rfl, rfl,
    (onGenerate_fail_state s o hs hfail).1,
    (onGenerate_fail_state s o hs hfail).2, ?_, rfl, rfl, rfl,
    (generatePlain_fail_state p o hp hfail).1,
    (generatePlain_fail_state p o hp hfail).2, ?_⟩
  · unfold onGenerate genRequestState
    simp [hs, hok]
  · unfold generatePlain genRequestStatePlain
    simp [hp, hok]

/-- Claim C10 witness: a failing network call keeps the prompt and leaves
no previous result visible; a 200 response clears the prompt. -/
theorem generate_clears_previous_witness :
    (genRequestState idleStyled).error = none ∧
    (genRequestState idleStyled).generated = none ∧
    (genRequestState idleStyled).prompt = idleStyled.prompt ∧
    (onGenerate idleStyled (.netError "boom")).1.generated = none ∧
    (onGenerate idleStyled (.netError "boom")).1.prompt
        = idleStyled.prompt ∧
    (onGenerate idleStyled (.response 200 "" (.ok story1))).1.prompt = "" ∧
    (genRequestStatePlain idlePlain).error = none ∧
    (genRequestStatePlain idlePlain).current = "" ∧
    (genRequestStatePlain idlePlain).prompt = idlePlain.prompt ∧
    (generatePlain idlePlain (.netError "boom")).1.current = "" ∧
    (generatePlain idlePlain (.netError "boom")).1.prompt
        = idlePlain.prompt ∧
    (generatePlain idlePlain (.response 200 "" (.ok story1))).1.prompt
        = "" :=
  generate_clears_previous idleStyled idlePlain (.netError "boom") 200 ""
    story1 (by decide) (by decide) (by decide) (by decide)

/-- Related states fed the same generation outcome stay related and agree
on whether a request was issued. -/
theorem gen_rel (s : AppState) (p : PlainState) (o : GenOutcome)
    (h : rel s p) :
    rel (onGenerate s o).1 (generatePlain p o).1 ∧
      (onGenerate s o).2 = (generatePlain p o).2 := by
  obtain ⟨h1, h2, h3, h4⟩ := h
  unfold onGenerate generatePlain genRequestState genRequestStatePlain
  rw [h1]
  by_cases hp : trimStr p.prompt = ""
  · simp [hp, rel, h1, h2, h3, h4]
  · cases o with
    | response status body dec =>
      cases hr : respOk status with
      | true =>
        cases dec with
        | ok data => simp [hp, hr, rel, h4]
        | fail m => simp [hp, hr, rel, h4]
      | false => simp [hp, hr, rel, h4]
    | netError m => simp [hp, rel, h4]

/-- Related states fed the same listing outcome stay related. -/
theorem load_rel (s : AppState) (p : PlainState) (o : ListOutcome)
    (h : rel s p) :
    rel (loadStories s o) (loadStoriesPlain p o) := by
  obtain ⟨h1, h2, h3, h4⟩ := h
  unfold loadStories loadStoriesPlain
  cases o with
  | response status dec =>
    cases hr : respOk status with
    | true =>
      cases dec with
      | ok data => simp [hr, rel, h1, h2, h3]
      | fail m => simp [hr, rel, h1, h2, h3, h4]
    | false => simp [hr, rel, h1, h2, h3, h4]
  | netError m => simp [rel, h1, h2, h3, h4]

/-- Related states fed the same event stay related and agree on whether a
request was issued. -/
theorem step_rel (s : AppState) (p : PlainState) (e : Event) (h : rel s p) :
    rel (stepStyled s e).1 (stepPlain p e).1 ∧
      (stepStyled s e).2 = (stepPlain p e).2 := by
  cases e with
  | typePrompt t =>
    obtain ⟨h1, h2, h3, h4⟩ := h
    unfold stepStyled stepPlain
    exact ⟨⟨rfl, h2, h3, h4⟩, rfl⟩
  | load o =>
    unfold stepStyled stepPlain
    exact ⟨load_rel s p o h, rfl⟩
  | gen o =>
    unfold stepStyled stepPlain
    exact gen_rel s p o h

/-- Related states fed the same event sequence stay related and issue the
same network requests. -/
theorem run_rel (events : List Event) :
    ∀ (s : AppState) (p : PlainState), rel s p →
      rel (runStyled s events).1 (runPlain p events).1 ∧
        (runStyled s events).2 = (runPlain p events).2 := by
  induction events with
  | nil =>
    intro s p h
    exact ⟨h, rfl⟩
  | cons e es ih =>
    intro s p h
    have hstep := step_rel s p e h
    have htail := ih (stepStyled s e).1 (stepPlain p e).1 hstep.1
    unfold runStyled runPlain
    exact ⟨htail.1, by rw [hstep.2, htail.2]⟩

/-- Claim C9: from their initial states, the styled and the plain variant,
fed any same sequence of events (prompt edits, listing outcomes, generation
outcomes), issue the same sequence of network requests and agree throughout
on the resulting prompt, loading flag, error, and story collection — they
differ only in presentation-level state. -/
theorem variants_equivalent (events : List Event) :
    rel (runStyled initStyled events).1 (runPlain initPlain events).1 ∧
      (runStyled initStyled events).2 = (runPlain initPlain events).2 :=
  run_rel events initStyled initPlain ⟨rfl, rfl, rfl, rfl⟩
